import Mathlib

set_option maxHeartbeats 800000

/-!
Verification development for the Sax-gear listing scraper.

The repository holds two near-identical pipeline scripts,
`scraper_auto.py` (namespace `Auto` below) and `script.py` (namespace
`Script` below).  Each is embedded shallowly: HTML retrieval and DOM
selection are modelled at their boundary (a page is the list of product
nodes selected by the site's item selector, each product node carrying
the `select_one` results for the name/price/link selectors), while the
repository's own logic — parsing, brand filtering, snapshot diffing,
and the run orchestration — is translated function by function.
-/

namespace SaxGear

/-- Python truthiness of an optional string (`None` and `""` are falsy),
as applied by `scraper_auto.py` to `dict.get` results. -/
def truthy : Option String → Bool
  | none => false
  | some s => !(s == "")

/-- `beginsWith sub l` holds when `sub` is an initial segment of `l`. -/
def beginsWith : List Char → List Char → Bool
  | [], _ => true
  | _ :: _, [] => false
  | a :: as, b :: bs => a == b && beginsWith as bs

/-- Models Python's substring test `sub in s` on character lists. -/
def containsSub (sub : List Char) : List Char → Bool
  | [] => sub.isEmpty
  | c :: cs => beginsWith sub (c :: cs) || containsSub sub cs

/-- Python `sub in s` on strings. -/
def strIn (sub s : String) : Bool := containsSub sub.data s.data

/-- Python `s.lower()`, mapped over the characters (the brand names and
listing titles involved are ASCII, where this agrees with Python). -/
def pyLower (s : String) : String := ⟨s.data.map Char.toLower⟩

/-- Python `a or b` for an optional string `a` with string default `b`
(`None` and `""` fall through to the default). -/
def truthyOr (a : Option String) (d : String) : String :=
  match a with
  | some s => if s == "" then d else s
  | none => d

/-- Characters allowed in a URL scheme, as in `urllib.parse`. -/
def isSchemeChar (c : Char) : Bool :=
  c.isAlpha || c.isDigit || c == '+' || c == '-' || c == '.'

/-- Splits a leading `scheme:` off a URL's characters, when present. -/
def schemeSplitAux (acc : List Char) : List Char → Option (List Char × List Char)
  | [] => none
  | c :: rest =>
    if c == ':' then (if acc.isEmpty then none else some (acc.reverse, rest))
    else if isSchemeChar c then schemeSplitAux (c :: acc) rest
    else none

/-- Splits a URL into `scheme` and remainder, when a scheme is present. -/
def schemeSplit (cs : List Char) : Option (List Char × List Char) :=
  schemeSplitAux [] cs

/-- True for characters that do not end a URL authority component. -/
def notDelim (c : Char) : Bool := !(c == '/' || c == '?' || c == '#')

/-- Splits a scheme-less URL remainder into its `//authority` part and
the rest (path, query, fragment). -/
def splitAuthority : List Char → List Char × List Char
  | '/' :: '/' :: cs => ('/' :: '/' :: cs.takeWhile notDelim, cs.dropWhile notDelim)
  | cs => ([], cs)

/-- Core of `urllib.parse.urljoin` on character lists: relative,
root-relative and protocol-relative references resolve against the
base; an empty reference returns the base; dot segments are not
normalised (the scrapers never produce them). -/
def urljoinData (bdata udata : List Char) : List Char :=
  if bdata.isEmpty then udata
  else if udata.isEmpty then bdata
  else
    match schemeSplit udata with
    | some _ => udata
    | none =>
      let bsplit :=
        match schemeSplit bdata with
        | some p => p
        | none => ([], bdata)
      let schPre := if bsplit.1.isEmpty then [] else bsplit.1 ++ [':']
      if beginsWith ['/', '/'] udata then schPre ++ udata
      else
        let asplit := splitAuthority bsplit.2
        if beginsWith ['/'] udata then schPre ++ asplit.1 ++ udata
        else
          let bpath := asplit.2.takeWhile (fun c => !(c == '?' || c == '#'))
          let dir := (bpath.reverse.dropWhile (fun c => !(c == '/'))).reverse
          let dir2 := if dir.isEmpty && !asplit.1.isEmpty then ['/'] else dir
          schPre ++ asplit.1 ++ dir2 ++ udata

/-- Models `urllib.parse.urljoin(base, url)` as used by both scrapers. -/
def urljoin (base url : String) : String := ⟨urljoinData base.data url.data⟩

/-- A DOM element at the selection boundary: its stripped text and its
href-like attributes. -/
structure Element where
  text : String
  href : Option String
  dataHref : Option String
  deriving DecidableEq, Repr

/-- One node matched by a site's item selector, carrying the
`select_one` results for the name, price and link selectors. -/
structure Product where
  name_el : Option Element
  price_el : Option Element
  link_el : Option Element
  deriving DecidableEq, Repr

/-- A source description from the `SITES` tables: base URL plus the
four structural selectors. -/
structure Site where
  url : String
  item : String
  name : String
  price : String
  link : String
  deriving DecidableEq, Repr

/-- State of the persisted snapshot file: absent, present but
unreadable/unparsable, or holding a parsed item list. -/
inductive SnapshotFile (α : Type) where
  | missing
  | corrupt
  | ok (items : List α)
  deriving DecidableEq, Repr

/-- Observable side effects of one run: a snapshot write, or a
notification attempt with its payload and outcome. -/
inductive Event (α : Type) where
  | persist (items : List α)
  | notify (items : List α) (ok : Bool)
  deriving DecidableEq, Repr

namespace Auto

/-- A listing dictionary of `scraper_auto.py`.  Entries read back from
the snapshot file are arbitrary dictionaries, so the `link` key is
optional (`dict.get("link")` may yield `None`). -/
structure Item where
  name : String
  price : String
  link : Option String
  source : String
  deriving DecidableEq, Repr

/-- The `TARGET_BRANDS` constant of `scraper_auto.py`. -/
def TARGET_BRANDS : List String :=
  ["Selmer", "Otto Link", "Dave Guardala", "Yanagisawa", "Beechler", "Yani", "Otto"]

/-- `parse_items_from_html(html, site)`: for each selected product node,
keep it only when the name and link elements are present; price text
defaults to the sentinel when the price element is absent; the href-like
attribute (`href`, else `data-href`, else `""`) is resolved against the
site URL. -/
def parse_items_from_html (html : List Product) (site : Site) : List Item :=
  html.filterMap fun product =>
    match product.name_el, product.link_el with
    | some name_el, some link_el =>
      let name := name_el.text
      let price :=
        match product.price_el with
        | some price_el => price_el.text
        | none => "Price not listed"
      let href := truthyOr link_el.href (truthyOr link_el.dataHref "")
      some { name := name, price := price,
             link := some (urljoin site.url href), source := site.url }
    | _, _ => none

/-- `fetch_static_html(url)`: the HTTP exchange is given at the boundary
as `none` (network exception) or `some (status, body)`; only a 200
status yields the body, anything else yields `None`. -/
def fetch_static_html (resp : Option (Nat × String)) : Option String :=
  match resp with
  | some (status, body) => if status == 200 then some body else none
  | none => none

/-- `fetch_dynamic_html(url)`: when Playwright is unavailable the
function returns `None`; otherwise the boundary supplies the rendering
outcome (`none` for any rendering failure). -/
def fetch_dynamic_html (pwAvailable : Bool) (rendered : Option String) : Option String :=
  if pwAvailable then rendered else none

/-- The HTML-selection logic of `fetch_site(site)`: static first, then
dynamic when the static body is missing or shorter than 2000. -/
def fetch_site_html (resp : Option (Nat × String)) (pwAvailable : Bool)
    (rendered : Option String) : Option String :=
  match fetch_static_html resp with
  | none => fetch_dynamic_html pwAvailable rendered
  | some h => if h.length < 2000 then fetch_dynamic_html pwAvailable rendered else some h

/-- `fetch_site(site)`: parse the selected HTML, or return `[]` when no
HTML could be retrieved.  `dom` models BeautifulSoup's selection of the
site's product nodes from an HTML string. -/
def fetch_site (resp : Option (Nat × String)) (pwAvailable : Bool)
    (rendered : Option String) (dom : String → List Product) (site : Site) : List Item :=
  match fetch_site_html resp pwAvailable rendered with
  | none => []
  | some h => parse_items_from_html (dom h) site

/-- `filter_by_brand(items)`, with the module's brand constant passed
explicitly: keep the items whose lower-cased name contains some
lower-cased brand. -/
def filter_by_brand (brands : List String) (items : List Item) : List Item :=
  if items.isEmpty then []
  else
    let brands_l := brands.map pyLower
    items.filter fun it => brands_l.any fun b => strIn b (pyLower it.name)

/-- `load_previous()`: an absent file and a file whose read or JSON
parse raises both collapse to `[]` (the latter through the
`try/except`). -/
def load_previous : SnapshotFile Item → List Item
  | SnapshotFile.missing => []
  | SnapshotFile.corrupt => []
  | SnapshotFile.ok items => items

/-- The set `{i.get("link") for i in previous if i.get("link")}` built
by `find_new_items`. -/
def prevLinkSet (previous : List Item) : List String :=
  previous.filterMap fun i => if truthy i.link then i.link else none

/-- `find_new_items(current, previous)` of `scraper_auto.py`: keep the
current items with a truthy link that is not among the previous truthy
links. -/
def find_new_items (current previous : List Item) : List Item :=
  let prev_links := prevLinkSet previous
  current.filter fun i =>
    match i.link with
    | none => false
    | some s => !(s == "") && !(prev_links.contains s)

/-- The future-collection loop of `run_once`: each per-source outcome is
either a result list or a raised exception; exceptions are caught and
contribute nothing. -/
def collect_results (results : List (Except String (List Item))) : List Item :=
  results.foldl
    (fun acc r =>
      match r with
      | Except.ok res => acc ++ res
      | Except.error _ => acc)
    []

/-- `run_once()`: collect, filter, diff against the stored snapshot;
when new items exist, save the filtered set and then send the email
(whose boolean outcome `emailOk` is ignored). -/
def run_once (results : List (Except String (List Item))) (file : SnapshotFile Item)
    (emailOk : Bool) : SnapshotFile Item × List (Event Item) :=
  let all_items := collect_results results
  let filtered := filter_by_brand TARGET_BRANDS all_items
  let previous := load_previous file
  let new_items := find_new_items filtered previous
  if new_items.isEmpty then (file, [])
  else (SnapshotFile.ok filtered, [Event.persist filtered, Event.notify new_items emailOk])

end Auto

namespace Script

/-- A listing dictionary of `script.py`; note it has no `source` key. -/
structure Listing where
  name : String
  price : String
  link : String
  deriving DecidableEq, Repr

/-- The `TARGET_BRANDS` constant of `script.py`. -/
def TARGET_BRANDS : List String :=
  ["Selmer", "Otto", "Guardala", "Yanagisawa", "Beechler", "Yani"]

/-- `parse_items(soup, site)`: keep product nodes whose name and link
elements are present; price text defaults to the sentinel when the
price element is absent; the `href` attribute (`urljoin` returns the
base for a `None` href) is resolved against the site URL. -/
def parse_items (soup : List Product) (site : Site) : List Listing :=
  soup.filterMap fun product =>
    match product.name_el, product.link_el with
    | some name_el, some link_el =>
      some { name := name_el.text,
             price :=
               match product.price_el with
               | some price_el => price_el.text
               | none => "Price not listed",
             link := urljoin site.url (link_el.href.getD "") }
    | _, _ => none

/-- `fetch_static_html(url)` of `script.py`. -/
def fetch_static_html (resp : Option (Nat × String)) : Option String :=
  match resp with
  | some (status, body) => if status == 200 then some body else none
  | none => none

/-- `fetch_dynamic_html(url)` of `script.py`: any rendering failure is
caught and yields `None`, which the boundary value `rendered` already
encodes. -/
def fetch_dynamic_html (rendered : Option String) : Option String :=
  rendered

/-- The HTML-selection logic of `fetch_site_data(site)`: static first,
then dynamic when the static body is missing or shorter than 5000. -/
def fetch_site_data_html (resp : Option (Nat × String)) (rendered : Option String) :
    Option String :=
  match fetch_static_html resp with
  | none => fetch_dynamic_html rendered
  | some h => if h.length < 5000 then fetch_dynamic_html rendered else some h

/-- `fetch_site_data(site)`: parse the selected HTML, or return `[]`
when no HTML could be retrieved. -/
def fetch_site_data (resp : Option (Nat × String)) (rendered : Option String)
    (dom : String → List Product) (site : Site) : List Listing :=
  match fetch_site_data_html resp rendered with
  | none => []
  | some h => parse_items (dom h) site

/-- `filter_items(items)`, with the module's brand constant passed
explicitly. -/
def filter_items (brands : List String) (items : List Listing) : List Listing :=
  items.filter fun item => brands.any fun b => strIn (pyLower b) (pyLower item.name)

/-- `load_previous_items()` of `script.py`: a missing file yields `[]`,
but the read and `json.load` of an existing file are not guarded, so a
corrupt file raises. -/
def load_previous_items : SnapshotFile Listing → Except String (List Listing)
  | SnapshotFile.missing => Except.ok []
  | SnapshotFile.corrupt => Except.error "JSONDecodeError"
  | SnapshotFile.ok items => Except.ok items

/-- `find_new_items(current, previous)` of `script.py`. -/
def find_new_items (current previous : List Listing) : List Listing :=
  let prev_links := previous.map Listing.link
  current.filter fun i => !(prev_links.contains i.link)

/-- The future-collection loop of `main()`: `f.result()` is not guarded,
so the first per-source exception propagates. -/
def collect_results (results : List (Except String (List Listing))) :
    Except String (List Listing) :=
  results.foldl
    (fun acc r =>
      match acc, r with
      | Except.error e, _ => Except.error e
      | Except.ok xs, Except.ok ys => Except.ok (xs ++ ys)
      | Except.ok _, Except.error e => Except.error e)
    (Except.ok [])

/-- `main()` of `script.py`: collect (propagating source exceptions),
filter, load the previous snapshot (propagating parse errors), diff;
when new items exist, save the filtered set and then send the email
(its outcome `emailOk` is caught inside `send_email`). -/
def main (results : List (Except String (List Listing))) (file : SnapshotFile Listing)
    (emailOk : Bool) : Except String (SnapshotFile Listing × List (Event Listing)) :=
  match collect_results results with
  | Except.error e => Except.error e
  | Except.ok all_items =>
    let filtered := filter_items TARGET_BRANDS all_items
    match load_previous_items file with
    | Except.error e => Except.error e
    | Except.ok previous =>
      let new_items := find_new_items filtered previous
      if new_items.isEmpty then Except.ok (file, [])
      else Except.ok (SnapshotFile.ok filtered,
                      [Event.persist filtered, Event.notify new_items emailOk])

end Script

/-- Number of notification attempts in an event trace. -/
def notifyCount {α : Type} (ev : List (Event α)) : Nat :=
  ev.countP fun x =>
    match x with
    | Event.notify _ _ => true
    | _ => false

/-- The snapshot writes in an event trace, in order. -/
def persistsOf {α : Type} (ev : List (Event α)) : List (List α) :=
  ev.filterMap fun x =>
    match x with
    | Event.persist xs => some xs
    | _ => none

/-- A static body long enough to avoid escalation in `scraper_auto.py`. -/
def sampleBody : String := ⟨List.replicate 2000 'a'⟩

/-- A static body long enough to avoid escalation in `script.py`. -/
def sampleBodyLong : String := ⟨List.replicate 5000 'a'⟩

/-- A sample listing of `script.py`. -/
def sA : Script.Listing := ⟨"Selmer Mk6", "1000", "https://s/a"⟩

/-- A second sample listing of `script.py`. -/
def sB : Script.Listing := ⟨"Yamaha Neck", "50", "https://s/b"⟩

/-- A sample item of `scraper_auto.py`. -/
def aA : Auto.Item := ⟨"Selmer Mk6", "1000", some "https://s/a", "https://s"⟩

/-- A second sample item of `scraper_auto.py`. -/
def aB : Auto.Item := ⟨"Yamaha Neck", "50", some "https://s/b", "https://s"⟩

/-- A sample item with no `link` key. -/
def aNoLink : Auto.Item := ⟨"Ghost", "0", none, "https://s"⟩

/-- A sample name element. -/
def nameElW : Element := ⟨"Selmer Mk6", none, none⟩

/-- A sample link element. -/
def linkElW : Element := ⟨"", some "/a/b", none⟩

/-- A sample site description. -/
def siteW : Site := ⟨"https://x.com/shop/", ".i", ".n", ".p", "a"⟩

theorem urljoinData_ne_nil (b u : List Char) (hb : b ≠ []) : urljoinData b u ≠ [] := by
  unfold urljoinData
  split
  · next h => exact absurd (List.isEmpty_iff.mp h) hb
  · split
    · exact hb
    · next h2 =>
      have hu : u ≠ [] := fun hh => h2 (List.isEmpty_iff.mpr hh)
      split
      · exact hu
      · dsimp only
        split
        · simp [List.append_eq_nil, hu]
        · split
          · simp [List.append_eq_nil, hu]
          · simp [List.append_eq_nil, hu]

theorem urljoin_ne_empty (base url : String) (hb : base ≠ "") : urljoin base url ≠ "" := by
  have hbd : base.data ≠ [] := by
    intro h
    exact hb (by cases base; simp_all)
  intro h
  have hdata := congrArg String.data h
  exact urljoinData_ne_nil base.data url.data hbd hdata

theorem mem_prevLinkSet (prev : List Auto.Item) (s : String) :
    s ∈ Auto.prevLinkSet prev ↔ ∃ i ∈ prev, truthy i.link = true ∧ i.link = some s := by
  simp only [Auto.prevLinkSet, List.mem_filterMap]
  constructor
  · rintro ⟨i, hi, hf⟩
    by_cases ht : truthy i.link = true
    · exact ⟨i, hi, ht, by simpa [ht] using hf⟩
    · simp [ht] at hf
  · rintro ⟨i, hi, ht, hl⟩
    refine ⟨i, hi, ?_⟩
    rw [ht]
    simp [hl]

/-- C1: both diff implementations return exactly the current Listings
whose link is not among the previous snapshot's links, preserving
current's order (for `scraper_auto.py`, on items whose `link` keys are
truthy, which all pipeline-produced Listings are), and diffing a
snapshot against itself yields nothing. -/
theorem diff_returns_exactly_new_links
    (cur prev : List Script.Listing) (curA prevA : List Auto.Item)
    (hc : ∀ i ∈ curA, truthy i.link = true)
    (hp : ∀ i ∈ prevA, truthy i.link = true) :
    Script.find_new_items cur prev
      = cur.filter (fun l => !((prev.map Script.Listing.link).contains l.link))
    ∧ Script.find_new_items cur cur = []
    ∧ Auto.find_new_items curA prevA
      = curA.filter (fun i => !((prevA.map Auto.Item.link).contains i.link))
    ∧ Auto.find_new_items curA curA = [] := by
  refine ⟨rfl, ?_, ?_, ?_⟩
  · rw [Script.find_new_items, List.filter_eq_nil_iff]
    intro l hl
    have hmem : l.link ∈ cur.map Script.Listing.link := List.mem_map_of_mem _ hl
    simp [List.contains, List.elem_eq_mem, hmem]
  · rw [Auto.find_new_items]
    apply List.filter_congr
    intro i hi
    have ht := hc i hi
    match hlink : i.link with
    | none => rw [hlink] at ht; simp [truthy] at ht
    | some s =>
      rw [hlink] at ht
      have hs : (s == "") = false := by
        cases hbe : s == "" with
        | true => rw [truthy, hbe] at ht; simp at ht
        | false => rfl
      have hiff : s ∈ Auto.prevLinkSet prevA ↔ some s ∈ prevA.map Auto.Item.link := by
        rw [mem_prevLinkSet]
        simp only [List.mem_map]
        constructor
        · rintro ⟨j, hj, _, hl⟩
          exact ⟨j, hj, hl⟩
        · rintro ⟨j, hj, hl⟩
          exact ⟨j, hj, hp j hj, hl⟩
      have hset : ((Auto.prevLinkSet prevA).contains s)
          = ((prevA.map Auto.Item.link).contains (some s)) := by
        simp only [List.contains, List.elem_eq_mem]
        rw [decide_eq_decide]
        exact hiff
      show (!(s == "") && !((Auto.prevLinkSet prevA).contains s))
          = !((prevA.map Auto.Item.link).contains (some s))
      rw [hs, hset]
      simp
  · rw [Auto.find_new_items, List.filter_eq_nil_iff]
    intro i hi
    match hlink : i.link with
    | none => simp
    | some s =>
      cases hbe : s == "" with
      | true => simp [hbe]
      | false =>
        have hmem : s ∈ Auto.prevLinkSet curA := by
          refine (mem_prevLinkSet curA s).mpr ⟨i, hi, ?_, hlink⟩
          rw [hlink]
          simp [truthy, hbe]
        simp [hbe]
        exact hmem

/-- C10: `scraper_auto.py`'s diff never returns an item whose `link`
key is missing or empty, a previous entry with a missing or empty link
adds nothing to the known-link set, and a link-less current item is
never reported as new. -/
theorem auto_diff_never_returns_linkless
    (cur prev : List Auto.Item) (j : Auto.Item) (hj : truthy j.link = false) :
    (∀ i ∈ Auto.find_new_items cur prev, truthy i.link = true)
    ∧ Auto.prevLinkSet (j :: prev) = Auto.prevLinkSet prev
    ∧ Auto.find_new_items cur (j :: prev) = Auto.find_new_items cur prev
    ∧ ∀ i ∈ cur, truthy i.link = false → i ∉ Auto.find_new_items cur prev := by
  have hset : Auto.prevLinkSet (j :: prev) = Auto.prevLinkSet prev := by
    simp [Auto.prevLinkSet, List.filterMap_cons, hj]
  have hmem : ∀ i ∈ Auto.find_new_items cur prev, truthy i.link = true := by
    intro i hi
    rw [Auto.find_new_items, List.mem_filter] at hi
    have h2 := hi.2
    match hlink : i.link with
    | none => rw [hlink] at h2; simp at h2
    | some s =>
      rw [hlink] at h2
      simp only [truthy]
      simp only [Bool.and_eq_true] at h2
      exact h2.1
  refine ⟨hmem, hset, ?_, ?_⟩
  · rw [Auto.find_new_items, Auto.find_new_items, hset]
  · intro i _ hfalse hin
    rw [hmem i hin] at hfalse
    exact Bool.true_eq_false.mp hfalse

theorem diff_returns_exactly_new_links_witness :
    Script.find_new_items [sA] [sB]
      = [sA].filter (fun l => !(([sB].map Script.Listing.link).contains l.link))
    ∧ Script.find_new_items [sA] [sA] = []
    ∧ Auto.find_new_items [aA] [aB]
      = [aA].filter (fun i => !(([aB].map Auto.Item.link).contains i.link))
    ∧ Auto.find_new_items [aA] [aA] = [] :=
  diff_returns_exactly_new_links [sA] [sB] [aA] [aB] (by decide) (by decide)

theorem auto_diff_never_returns_linkless_witness :
    (∀ i ∈ Auto.find_new_items [aA] [aB], truthy i.link = true)
    ∧ Auto.prevLinkSet (aNoLink :: [aB]) = Auto.prevLinkSet [aB]
    ∧ Auto.find_new_items [aA] (aNoLink :: [aB]) = Auto.find_new_items [aA] [aB]
    ∧ ∀ i ∈ [aA], truthy i.link = false → i ∉ Auto.find_new_items [aA] [aB] :=
  auto_diff_never_returns_linkless [aA] [aB] aNoLink (by decide)

/-- C9: both brand filters keep a Listing exactly when its lower-cased
name contains some lower-cased allowlist brand as a substring (no other
field participates in the predicate), and on the allowlist `["Selmer"]`
a `"Selmer Paris Mouthpiece"` Listing is kept while a `"Yamaha Neck"`
one is dropped. -/
theorem brand_filter_keeps_iff
    (brands : List String) (items : List Auto.Item) (l : Auto.Item)
    (itemsS : List Script.Listing) (lS : Script.Listing) :
    (l ∈ Auto.filter_by_brand brands items
      ↔ l ∈ items ∧ ((brands.map pyLower).any fun b => strIn b (pyLower l.name)) = true)
    ∧ (lS ∈ Script.filter_items brands itemsS
      ↔ lS ∈ itemsS ∧ (brands.any fun b => strIn (pyLower b) (pyLower lS.name)) = true)
    ∧ Script.filter_items ["Selmer"]
        [⟨"Selmer Paris Mouthpiece", "100", "https://s/a"⟩,
         ⟨"Yamaha Neck", "50", "https://s/b"⟩]
      = [⟨"Selmer Paris Mouthpiece", "100", "https://s/a"⟩]
    ∧ Auto.filter_by_brand ["Selmer"]
        [⟨"Selmer Paris Mouthpiece", "100", some "https://s/a", "s"⟩,
         ⟨"Yamaha Neck", "50", some "https://s/b", "s"⟩]
      = [⟨"Selmer Paris Mouthpiece", "100", some "https://s/a", "s"⟩] := by
  refine ⟨?_, List.mem_filter, by rfl, by rfl⟩
  rw [Auto.filter_by_brand]
  split
  · next hemp =>
    have h0 : items = [] := List.isEmpty_iff.mp hemp
    subst h0
    simp
  · exact List.mem_filter

/-- C2: when the diff of the filtered current set against the previous
snapshot is empty, neither implementation writes the snapshot (the
stored state is unchanged) and neither sends a notification. -/
theorem noop_run_preserves_state
    (results : List (Except String (List Auto.Item))) (file : SnapshotFile Auto.Item)
    (b : Bool)
    (h : Auto.find_new_items
        (Auto.filter_by_brand Auto.TARGET_BRANDS (Auto.collect_results results))
        (Auto.load_previous file) = [])
    (resultsS : List (Except String (List Script.Listing)))
    (fileS : SnapshotFile Script.Listing) (bS : Bool)
    (allS prevS : List Script.Listing)
    (hcol : Script.collect_results resultsS = Except.ok allS)
    (hload : Script.load_previous_items fileS = Except.ok prevS)
    (hS : Script.find_new_items (Script.filter_items Script.TARGET_BRANDS allS) prevS
        = []) :
    Auto.run_once results file b = (file, [])
    ∧ Script.main resultsS fileS bS = Except.ok (fileS, []) := by
  constructor
  · rw [Auto.run_once]
    simp [h]
  · rw [Script.main, hcol]
    simp [hload, hS]

theorem noop_run_preserves_state_witness :
    Auto.run_once [] (SnapshotFile.ok []) true = (SnapshotFile.ok [], [])
    ∧ Script.main [] SnapshotFile.missing true = Except.ok (SnapshotFile.missing, []) :=
  noop_run_preserves_state [] (SnapshotFile.ok []) true rfl
    [] SnapshotFile.missing true [] [] rfl rfl rfl

/-- C3 (amended): every Listing the extractors emit comes from a
product node whose name and link elements are present (though the name
text may be empty), carries a link that is non-empty whenever the base
URL is non-empty, uses exactly the sentinel price when the price
element is absent, and — in `scraper_auto.py` only — carries
`source` equal to the site's base URL (`script.py` Listings have no
source field). -/
theorem extractor_field_guarantees
    (html : List Product) (site : Site) (hurl : site.url ≠ "") (nameEl linkEl : Element) :
    (∀ l ∈ Auto.parse_items_from_html html site,
        l.source = site.url ∧ ∃ s, l.link = some s ∧ s ≠ "")
    ∧ (∀ l ∈ Script.parse_items html site, l.link ≠ "")
    ∧ Auto.parse_items_from_html [⟨some nameEl, none, some linkEl⟩] site
        = [{ name := nameEl.text, price := "Price not listed",
             link := some (urljoin site.url
               (truthyOr linkEl.href (truthyOr linkEl.dataHref ""))),
             source := site.url }]
    ∧ Script.parse_items [⟨some nameEl, none, some linkEl⟩] site
        = [{ name := nameEl.text, price := "Price not listed",
             link := urljoin site.url (linkEl.href.getD "") }] := by
  refine ⟨?_, ?_, rfl, rfl⟩
  · intro l hl
    simp only [Auto.parse_items_from_html, List.mem_filterMap] at hl
    obtain ⟨p, _, hf⟩ := hl
    obtain ⟨ne', pe', le'⟩ := p
    cases ne' with
    | none => simp at hf
    | some a =>
      cases le' with
      | none => simp at hf
      | some c =>
        simp only [Option.some.injEq] at hf
        refine ⟨?_, ?_⟩
        · rw [← hf]
        · exact ⟨urljoin site.url (truthyOr c.href (truthyOr c.dataHref "")),
            by rw [← hf], urljoin_ne_empty _ _ hurl⟩
  · intro l hl
    simp only [Script.parse_items, List.mem_filterMap] at hl
    obtain ⟨p, _, hf⟩ := hl
    obtain ⟨ne', pe', le'⟩ := p
    cases ne' with
    | none => simp at hf
    | some a =>
      cases le' with
      | none => simp at hf
      | some c =>
        simp only [Option.some.injEq] at hf
        rw [← hf]
        exact urljoin_ne_empty _ _ hurl

theorem extractor_field_guarantees_witness :
    Auto.parse_items_from_html [⟨some nameElW, none, some linkElW⟩] siteW
      = [{ name := "Selmer Mk6", price := "Price not listed",
           link := some "https://x.com/a/b", source := "https://x.com/shop/" }]
    ∧ Script.parse_items [⟨some nameElW, none, some linkElW⟩] siteW
      = [{ name := "Selmer Mk6", price := "Price not listed",
           link := "https://x.com/a/b" }] :=
  ⟨(extractor_field_guarantees [⟨some nameElW, none, some linkElW⟩] siteW
      (by decide) nameElW linkElW).2.2.1,
   (extractor_field_guarantees [⟨some nameElW, none, some linkElW⟩] siteW
      (by decide) nameElW linkElW).2.2.2⟩

theorem auto_collect_results_flatten (results : List (Except String (List Auto.Item))) :
    Auto.collect_results results = (results.filterMap Except.toOption).flatten := by
  have key : ∀ (rs : List (Except String (List Auto.Item))) (acc : List Auto.Item),
      rs.foldl (fun acc r =>
        match r with
        | Except.ok res => acc ++ res
        | Except.error _ => acc) acc
      = acc ++ (rs.filterMap Except.toOption).flatten := by
    intro rs
    induction rs with
    | nil => intro acc; simp
    | cons r rest ih =>
      intro acc
      cases r with
      | ok xs => simp [ih, Except.toOption, List.append_assoc]
      | error e => simp [ih, Except.toOption]
  simpa [Auto.collect_results] using key results []

theorem script_collect_error (e : String)
    (rest : List (Except String (List Script.Listing))) :
    Script.collect_results (Except.error e :: rest) = Except.error e := by
  have key : ∀ (rs : List (Except String (List Script.Listing))),
      rs.foldl (fun acc r =>
        match acc, r with
        | Except.error e, _ => Except.error e
        | Except.ok xs, Except.ok ys => Except.ok (xs ++ ys)
        | Except.ok _, Except.error e => Except.error e) (Except.error e)
      = Except.error e := by
    intro rs
    induction rs with
    | nil => rfl
    | cons r rs ih => cases r <;> simpa using ih
  exact key rest

/-- C4 (amended): in `scraper_auto.py` the orchestrator's aggregation
is total — a source task that raises contributes nothing while every
successful source's items are collected — but in `script.py` the first
source task that raises aborts the aggregation (and hence the run);
`script.py`'s fetch tiers themselves do degrade to an empty list. -/
theorem fault_isolation
    (results restA : List (Except String (List Auto.Item)))
    (e eA : String) (xs : List Auto.Item)
    (rest : List (Except String (List Script.Listing)))
    (dom : String → List Product) (site : Site) :
    Auto.collect_results results = (results.filterMap Except.toOption).flatten
    ∧ Auto.collect_results (Except.error eA :: restA) = Auto.collect_results restA
    ∧ Auto.collect_results (Except.ok xs :: restA) = xs ++ Auto.collect_results restA
    ∧ Script.collect_results (Except.error e :: rest) = Except.error e
    ∧ Script.fetch_site_data none none dom site = [] := by
  refine ⟨auto_collect_results_flatten results, ?_, ?_,
    script_collect_error e rest, rfl⟩
  · rw [auto_collect_results_flatten, auto_collect_results_flatten]
    simp [Except.toOption]
  · rw [auto_collect_results_flatten, auto_collect_results_flatten]
    simp [Except.toOption]

/-- C8: for base URL `https://x.com/shop/`, the extractors store href
`/a/b` as link `https://x.com/a/b` and href `c?d=1` as link
`https://x.com/shop/c?d=1`. -/
theorem link_resolution_examples :
    (Auto.parse_items_from_html
        [⟨some ⟨"Item A", none, none⟩, none, some ⟨"", some "/a/b", none⟩⟩]
        ⟨"https://x.com/shop/", ".i", ".n", ".p", "a"⟩).map Auto.Item.link
      = [some "https://x.com/a/b"]
    ∧ (Auto.parse_items_from_html
        [⟨some ⟨"Item B", none, none⟩, none, some ⟨"", some "c?d=1", none⟩⟩]
        ⟨"https://x.com/shop/", ".i", ".n", ".p", "a"⟩).map Auto.Item.link
      = [some "https://x.com/shop/c?d=1"]
    ∧ (Script.parse_items
        [⟨some ⟨"Item A", none, none⟩, none, some ⟨"", some "/a/b", none⟩⟩]
        ⟨"https://x.com/shop/", ".i", ".n", ".p", "a"⟩).map Script.Listing.link
      = ["https://x.com/a/b"]
    ∧ (Script.parse_items
        [⟨some ⟨"Item B", none, none⟩, none, some ⟨"", some "c?d=1", none⟩⟩]
        ⟨"https://x.com/shop/", ".i", ".n", ".p", "a"⟩).map Script.Listing.link
      = ["https://x.com/shop/c?d=1"] :=
  ⟨rfl, rfl, rfl, rfl⟩

/-- C3 counterexample: on a product node whose name element is present
but has empty stripped text, `parse_items_from_html` emits a Listing
with an empty name, so the Extractor does not guarantee non-empty
names. -/
theorem parse_accepts_empty_name :
    ¬ (∀ l ∈ Auto.parse_items_from_html
          [⟨some ⟨"", none, none⟩, none, some ⟨"", some "/a/b", none⟩⟩]
          ⟨"https://x.com/shop/", ".i", ".n", ".p", "a"⟩,
        l.name ≠ "") := by
  decide

/-- C5 counterexample: `script.py`'s `load_previous_items` does not
guard `json.load`, so an existing-but-corrupt snapshot file raises
instead of yielding the empty snapshot. -/
theorem script_load_raises_on_corrupt :
    Script.load_previous_items SnapshotFile.corrupt = Except.error "JSONDecodeError"
    ∧ Script.load_previous_items SnapshotFile.corrupt ≠ Except.ok [] :=
  ⟨rfl, by simp [Script.load_previous_items]⟩

/-- C5 (amended): `scraper_auto.py`'s `load_previous` returns the empty
snapshot on a missing or corrupt file and the stored items otherwise;
`script.py`'s `load_previous_items` returns the empty snapshot only for
a missing file and raises on a corrupt one. -/
theorem load_previous_failure_semantics (items : List Auto.Item)
    (itemsS : List Script.Listing) :
    Auto.load_previous SnapshotFile.missing = []
    ∧ Auto.load_previous SnapshotFile.corrupt = []
    ∧ Auto.load_previous (SnapshotFile.ok items) = items
    ∧ Script.load_previous_items SnapshotFile.missing = Except.ok []
    ∧ Script.load_previous_items (SnapshotFile.ok itemsS) = Except.ok itemsS :=
  ⟨rfl, rfl, rfl, rfl, rfl⟩

/-- C4 counterexample: in `script.py`, a source task that raises aborts
`main` — the other source's listings are not collected and the run does
not complete. -/
theorem script_run_aborts_on_source_error :
    Script.main
        [Except.error "boom", Except.ok [⟨"Selmer Mk6", "1", "https://s/b"⟩]]
        (SnapshotFile.ok []) true
      = Except.error "boom" :=
  rfl

theorem script_main_events
    (resultsS : List (Except String (List Script.Listing)))
    (fileS : SnapshotFile Script.Listing) (bS : Bool) :
    ∀ st ev, Script.main resultsS fileS bS = Except.ok (st, ev) →
      notifyCount ev ≤ 1
      ∧ (∀ i n ok, ev.get? i = some (Event.notify n ok) →
          ∃ j, j < i ∧ ∃ p, ev.get? j = some (Event.persist p)) := by
  intro st ev h
  rw [Script.main] at h
  cases hcol : Script.collect_results resultsS with
  | error e => rw [hcol] at h; simp at h
  | ok allS =>
    rw [hcol] at h
    cases hload : Script.load_previous_items fileS with
    | error e => rw [hload] at h; simp at h
    | ok prevS =>
      rw [hload] at h
      by_cases hempS : (Script.find_new_items
          (Script.filter_items Script.TARGET_BRANDS allS) prevS).isEmpty = true
      · simp only [hempS, if_true] at h
        obtain ⟨h1, h2⟩ := Prod.mk.injEq .. ▸ (Except.ok.inj h)
        subst h2
        constructor
        · simp [notifyCount]
        · intro i n ok hget
          simp at hget
      · simp only [hempS, if_false, Bool.false_eq_true] at h
        obtain ⟨h1, h2⟩ := Prod.mk.injEq .. ▸ (Except.ok.inj h)
        subst h2
        constructor
        · simp [notifyCount, List.countP_cons, List.countP_nil]
        · intro i n ok hget
          match i with
          | 0 => simp at hget
          | 1 => exact ⟨0, by omega, _, rfl⟩
          | (k + 2) => simp at hget

theorem script_main_map_eq
    (resultsS : List (Except String (List Script.Listing)))
    (fileS : SnapshotFile Script.Listing) (bS bS' : Bool) :
    (Script.main resultsS fileS bS).map (fun r => (r.1, persistsOf r.2))
      = (Script.main resultsS fileS bS').map (fun r => (r.1, persistsOf r.2)) := by
  rw [Script.main, Script.main]
  cases Script.collect_results resultsS with
  | error e => rfl
  | ok allS =>
    cases Script.load_previous_items fileS with
    | error e => rfl
    | ok prevS =>
      by_cases hempS : (Script.find_new_items
          (Script.filter_items Script.TARGET_BRANDS allS) prevS).isEmpty = true
      · simp [hempS]
      · simp [hempS, persistsOf]
        rfl

theorem script_main_notifies
    (resultsS : List (Except String (List Script.Listing)))
    (fileS : SnapshotFile Script.Listing) (bS : Bool) :
    ∀ allS prevS,
      Script.collect_results resultsS = Except.ok allS →
      Script.load_previous_items fileS = Except.ok prevS →
      Script.find_new_items (Script.filter_items Script.TARGET_BRANDS allS) prevS ≠ [] →
      ∃ st ev, Script.main resultsS fileS bS = Except.ok (st, ev)
        ∧ notifyCount ev = 1 := by
  intro allS prevS hcol hload hne
  have hempS : (Script.find_new_items
      (Script.filter_items Script.TARGET_BRANDS allS) prevS).isEmpty = false := by
    cases h : (Script.find_new_items
        (Script.filter_items Script.TARGET_BRANDS allS) prevS).isEmpty with
    | false => rfl
    | true => exact absurd (List.isEmpty_iff.mp h) hne
  refine ⟨SnapshotFile.ok (Script.filter_items Script.TARGET_BRANDS allS),
    [Event.persist (Script.filter_items Script.TARGET_BRANDS allS),
     Event.notify (Script.find_new_items
       (Script.filter_items Script.TARGET_BRANDS allS) prevS) bS],
    ?_, ?_⟩
  · rw [Script.main, hcol]
    simp [hload, hempS]
  · simp [notifyCount, List.countP_cons, List.countP_nil]

/-- C6: in both implementations the notifier runs at most once per run
and exactly once when the diff is non-empty, every notification event is
preceded by a persist event, and the notification outcome influences
neither the resulting stored snapshot nor the persist events. -/
theorem notify_once_persist_first
    (results : List (Except String (List Auto.Item))) (file : SnapshotFile Auto.Item)
    (b b' : Bool)
    (resultsS : List (Except String (List Script.Listing)))
    (fileS : SnapshotFile Script.Listing) (bS bS' : Bool) :
    notifyCount (Auto.run_once results file b).2 ≤ 1
    ∧ (Auto.find_new_items
          (Auto.filter_by_brand Auto.TARGET_BRANDS (Auto.collect_results results))
          (Auto.load_previous file) ≠ [] →
        notifyCount (Auto.run_once results file b).2 = 1)
    ∧ (∀ i n ok, (Auto.run_once results file b).2.get? i = some (Event.notify n ok) →
        ∃ j, j < i ∧ ∃ p, (Auto.run_once results file b).2.get? j = some (Event.persist p))
    ∧ (Auto.run_once results file b).1 = (Auto.run_once results file b').1
    ∧ persistsOf (Auto.run_once results file b).2 = persistsOf (Auto.run_once results file b').2
    ∧ (∀ st ev, Script.main resultsS fileS bS = Except.ok (st, ev) →
        notifyCount ev ≤ 1
        ∧ (∀ i n ok, ev.get? i = some (Event.notify n ok) →
            ∃ j, j < i ∧ ∃ p, ev.get? j = some (Event.persist p)))
    ∧ (Script.main resultsS fileS bS).map (fun r => (r.1, persistsOf r.2))
        = (Script.main resultsS fileS bS').map (fun r => (r.1, persistsOf r.2))
    ∧ (∀ allS prevS,
        Script.collect_results resultsS = Except.ok allS →
        Script.load_previous_items fileS = Except.ok prevS →
        Script.find_new_items (Script.filter_items Script.TARGET_BRANDS allS) prevS
          ≠ [] →
        ∃ st ev, Script.main resultsS fileS bS = Except.ok (st, ev)
          ∧ notifyCount ev = 1) := by
  by_cases hemp : (Auto.find_new_items
      (Auto.filter_by_brand Auto.TARGET_BRANDS (Auto.collect_results results))
      (Auto.load_previous file)).isEmpty = true
  case pos =>
    have hb : Auto.run_once results file b = (file, []) := by
      rw [Auto.run_once]; simp [hemp]
    have hb' : Auto.run_once results file b' = (file, []) := by
      rw [Auto.run_once]; simp [hemp]
    refine ⟨?_, ?_, ?_, ?_, ?_, ?_, ?_, ?_⟩
    · simp [hb, notifyCount]
    · intro hne
      exact absurd (List.isEmpty_iff.mp hemp) hne
    · intro i n ok hget
      rw [hb] at hget
      simp at hget
    · rw [hb, hb']
    · rw [hb, hb']
    · exact script_main_events resultsS fileS bS
    · exact script_main_map_eq resultsS fileS bS bS'
    · exact script_main_notifies resultsS fileS bS
  case neg =>
    have hb : ∀ bb : Bool, Auto.run_once results file bb
        = (SnapshotFile.ok (Auto.filter_by_brand Auto.TARGET_BRANDS
              (Auto.collect_results results)),
           [Event.persist (Auto.filter_by_brand Auto.TARGET_BRANDS
              (Auto.collect_results results)),
            Event.notify (Auto.find_new_items
              (Auto.filter_by_brand Auto.TARGET_BRANDS (Auto.collect_results results))
              (Auto.load_previous file)) bb]) := by
      intro bb
      rw [Auto.run_once]
      simp [hemp]
    refine ⟨?_, ?_, ?_, ?_, ?_, ?_, ?_, ?_⟩
    · simp [hb b, notifyCount, List.countP_cons, List.countP_nil]
    · intro _
      simp [hb b, notifyCount, List.countP_cons, List.countP_nil]
    · intro i n ok hget
      rw [hb b] at hget ⊢
      match i with
      | 0 => simp at hget
      | 1 => exact ⟨0, by omega, _, rfl⟩
      | (k + 2) => simp at hget
    · rw [hb b, hb b']
    · rw [hb b, hb b']
      simp [persistsOf]
    · exact script_main_events resultsS fileS bS
    · exact script_main_map_eq resultsS fileS bS bS'
    · exact script_main_notifies resultsS fileS bS

theorem notify_once_persist_first_witness :
    notifyCount (Auto.run_once [Except.ok [aA]] SnapshotFile.missing true).2 = 1
    ∧ (Auto.run_once [Except.ok [aA]] SnapshotFile.missing true).1
        = (Auto.run_once [Except.ok [aA]] SnapshotFile.missing false).1
    ∧ persistsOf (Auto.run_once [Except.ok [aA]] SnapshotFile.missing true).2
        = persistsOf (Auto.run_once [Except.ok [aA]] SnapshotFile.missing false).2
    ∧ (Script.main [Except.ok [sA]] SnapshotFile.missing true).map
          (fun r => (r.1, persistsOf r.2))
        = (Script.main [Except.ok [sA]] SnapshotFile.missing false).map
          (fun r => (r.1, persistsOf r.2))
    ∧ ∃ st ev, Script.main [Except.ok [sA]] SnapshotFile.missing true
          = Except.ok (st, ev) ∧ notifyCount ev = 1 :=
  ⟨(notify_once_persist_first [Except.ok [aA]] SnapshotFile.missing true false
      [Except.ok [sA]] SnapshotFile.missing true false).2.1 (by decide),
   (notify_once_persist_first [Except.ok [aA]] SnapshotFile.missing true false
      [Except.ok [sA]] SnapshotFile.missing true false).2.2.2.1,
   (notify_once_persist_first [Except.ok [aA]] SnapshotFile.missing true false
      [Except.ok [sA]] SnapshotFile.missing true false).2.2.2.2.1,
   (notify_once_persist_first [Except.ok [aA]] SnapshotFile.missing true false
      [Except.ok [sA]] SnapshotFile.missing true false).2.2.2.2.2.2.1,
   (notify_once_persist_first [Except.ok [aA]] SnapshotFile.missing true false
      [Except.ok [sA]] SnapshotFile.missing true false).2.2.2.2.2.2.2
     [sA] [] rfl rfl (by decide)⟩

/-- C7: the static body is used when the status is 200 and the body
reaches the escalation threshold (2000 in `scraper_auto.py`, 5000 in
`script.py`); a failed or too-short static fetch escalates to the
dynamic fetch; and with the rendering engine unavailable the escalation
yields no HTML, so the source contributes an empty list instead of
failing. -/
theorem fetch_two_tier
    (resp : Option (Nat × String)) (body : String) (pw : Bool) (rendered : Option String)
    (dom : String → List Product) (site : Site)
    (hlong : 2000 ≤ body.length)
    (hshort : ∀ h, Auto.fetch_static_html resp = some h → h.length < 2000)
    (respS : Option (Nat × String)) (bodyS : String) (renderedS : Option String)
    (hlongS : 5000 ≤ bodyS.length)
    (hshortS : ∀ h, Script.fetch_static_html respS = some h → h.length < 5000) :
    Auto.fetch_site_html (some (200, body)) pw rendered = some body
    ∧ Auto.fetch_site_html resp pw rendered = Auto.fetch_dynamic_html pw rendered
    ∧ Auto.fetch_dynamic_html false rendered = none
    ∧ Auto.fetch_site resp false rendered dom site = []
    ∧ Script.fetch_site_data_html (some (200, bodyS)) renderedS = some bodyS
    ∧ Script.fetch_site_data_html respS renderedS = Script.fetch_dynamic_html renderedS := by
  have h2 : ∀ pb : Bool, Auto.fetch_site_html resp pb rendered
      = Auto.fetch_dynamic_html pb rendered := by
    intro pb
    rw [Auto.fetch_site_html]
    cases hst : Auto.fetch_static_html resp with
    | none => rfl
    | some h => simp [hshort h hst]
  have h4 : Auto.fetch_site resp false rendered dom site = [] := by
    rw [Auto.fetch_site, h2 false]
    rfl
  have h6 : Script.fetch_site_data_html respS renderedS
      = Script.fetch_dynamic_html renderedS := by
    rw [Script.fetch_site_data_html]
    cases hst : Script.fetch_static_html respS with
    | none => rfl
    | some h => simp [hshortS h hst]
  refine ⟨?_, h2 pw, rfl, h4, ?_, h6⟩
  · show (if body.length < 2000 then Auto.fetch_dynamic_html pw rendered else some body)
        = some body
    rw [if_neg (by omega)]
  · show (if bodyS.length < 5000 then Script.fetch_dynamic_html renderedS else some bodyS)
        = some bodyS
    rw [if_neg (by omega)]

theorem fetch_two_tier_witness :
    Auto.fetch_site_html (some (200, sampleBody)) true (some "x") = some sampleBody
    ∧ Auto.fetch_site_html none true (some "x") = Auto.fetch_dynamic_html true (some "x")
    ∧ Auto.fetch_dynamic_html false (some "x") = none
    ∧ Auto.fetch_site none false (some "x") (fun _ => []) siteW = []
    ∧ Script.fetch_site_data_html (some (200, sampleBodyLong)) (some "y")
        = some sampleBodyLong
    ∧ Script.fetch_site_data_html none (some "y") = Script.fetch_dynamic_html (some "y") :=
  fetch_two_tier none sampleBody true (some "x") (fun _ => []) siteW
    (le_of_eq (List.length_replicate 2000 'a').symm)
    (by intro h hh; simp [Auto.fetch_static_html] at hh)
    none sampleBodyLong (some "y")
    (le_of_eq (List.length_replicate 5000 'a').symm)
    (by intro h hh; simp [Script.fetch_static_html] at hh)

end SaxGear
